import Mathlib

/-!
Verification of the feed-to-issue reconciliation core of mantisRssSync.

The JavaScript sources are embedded shallowly:

* `src/services/rssService.js` — `fetchRSSItems` normalizes each raw feed
  entry (`normalizeEntry` embeds the object literal built per item).
* `src/services/issueService.js` — `findNewIssues` (title diff against the
  existing issues) and `createNewIssues` (sequential creation loop with
  per-item try/catch).  The GitHub service is abstracted as a `Gateway`
  oracle whose calls may fail (`Except`), and the loop additionally returns
  the trace of gateway events it performed, in order, so that call-count,
  call-order and pacing properties can be stated.
* `src/services/githubService.js` — `addIssueToProject` is embedded as the
  list of project-board actions it performs (`attachActions`).
* `src/config.js` — `validateRequiredEnvVars` and the constructor.

JavaScript `x || y` falls through when `x` is `undefined`/`null` or the
empty string; this truthiness test is embedded as `jsTruthy` on
`Option String` (with `none` standing for `undefined`/`null`).
`String.prototype.trim` is embedded as the executable `jsTrim` (strip
leading and trailing whitespace characters).
-/

/-- JS `String.prototype.trim`: remove leading and trailing whitespace. -/
def jsTrim (s : String) : String :=
  String.mk (((s.data.dropWhile Char.isWhitespace).reverse.dropWhile
    Char.isWhitespace).reverse)

/-- One raw entry of the parsed feed, before normalization.  Every field of
the parser's item object may be absent (`none` = JS `undefined`). -/
structure RawFeedEntry where
  title : Option String
  category : Option String
  link : Option String
  description : Option String
  content : Option String
  guid : Option String
  pubDate : Option String
  isoDate : Option String
deriving DecidableEq, Repr

/-- JS truthiness of a string-valued expression: `undefined`, `null` and
`""` are falsy, every other string is truthy. -/
def jsTruthy : Option String → Bool
  | none => false
  | some s => !(s == "")

/-- JS `a || b` on two possibly-absent strings. -/
def jsOr (a b : Option String) : Option String :=
  if jsTruthy a then a else b

/-- JS `a || d` where the fallback `d` is a string literal. -/
def jsOrDefault : Option String → String → String
  | some s, d => if s == "" then d else s
  | none, d => d

/-- A normalized feed item, as produced by `RSSService.fetchRSSItems`. -/
structure FeedItem where
  title : String
  category : String
  link : String
  description : String
  guid : Option String
  pubDate : Option String
deriving DecidableEq, Repr

/-- The object literal built for one item inside `fetchRSSItems`
(src/services/rssService.js lines 26-33):
`title: item.title?.trim() || 'No Title'`,
`category: item.category || 'General'`, `link: item.link || ''`,
`description: item.description || item.content || 'No description available'`,
`guid: item.guid || item.link || item.title`,
`pubDate: item.pubDate || item.isoDate`. -/
def normalizeEntry (e : RawFeedEntry) : FeedItem :=
  ⟨jsOrDefault (e.title.map jsTrim) "No Title",
   jsOrDefault e.category "General",
   jsOrDefault e.link "",
   jsOrDefault (jsOr e.description e.content) "No description available",
   jsOr e.guid (jsOr e.link e.title),
   jsOr e.pubDate e.isoDate⟩

/-- `RSSService.fetchRSSItems`, restricted to its pure mapping over the
already-parsed feed entries (`feed.items.map(item => ...)`). -/
def fetchRSSItems (entries : List RawFeedEntry) : List FeedItem :=
  entries.map normalizeEntry

/-- An existing repository issue; `findNewIssues` only reads `title`. -/
structure ExistingIssue where
  title : String
  number : Nat
deriving DecidableEq, Repr

/-- `IssueService.findNewIssues` (src/services/issueService.js):
empty `existingIssues` short-circuits to `rssItems`; otherwise the JS `Set`
of trimmed existing titles is embedded as the list of trimmed titles with
`Set.has` as list membership, and items whose trimmed title is in the set
are filtered out. -/
def findNewIssues (rssItems : List FeedItem) (existingIssues : List ExistingIssue) :
    List FeedItem :=
  if existingIssues.length = 0 then rssItems
  else
    let existingTitles := existingIssues.map (fun issue => jsTrim issue.title)
    rssItems.filter (fun item => !(existingTitles.contains (jsTrim item.title)))

/-- Modelled from the spec: the general trimmed-title-set algorithm of
`findNew`, WITHOUT the empty-existing-issues short-circuit, for the
refinement comparison of claim C7. -/
def findNewSpecAlg (feedItems : List FeedItem) (existingIssues : List ExistingIssue) :
    List FeedItem :=
  let existingTitles := existingIssues.map (fun issue => jsTrim issue.title)
  feedItems.filter (fun item => !(existingTitles.contains (jsTrim item.title)))

/-- The creation result returned by the gateway's `createIssue`. -/
structure CreatedIssue where
  number : Nat
  title : String
deriving DecidableEq, Repr

/-- The per-run reconciliation defaults (`config.defaults`): `status` and
`milestone` are JS values that may be `null` (`none`). -/
structure Defaults where
  status : Option String
  milestone : Option String
deriving DecidableEq, Repr

/-- The issue-store gateway as seen by `IssueService.createNewIssues`: each
call either succeeds or fails with an error message (a JS rejection). -/
structure Gateway where
  createIssue : FeedItem → Except String CreatedIssue
  addIssueToProject : Nat → Option String → Option String → Except String Unit

/-- One observable gateway interaction of the creation loop. -/
inductive GatewayEvent where
  | createCall (item : FeedItem)
  | attachCall (issueNumber : Nat) (status milestone : Option String)
  | sleep (ms : Nat)
deriving DecidableEq, Repr

/-- The body of one non-dry-run loop iteration of `createNewIssues`
(the try block): call `createIssue`; on success push the issue and call
`addIssueToProject(issue.number, defaults.status, defaults.milestone)`;
on success of that, `sleep(1000)`.  A thrown error is caught at this scope,
so the iteration yields the issue pushed so far (`none` when creation
failed, `some issue` once creation succeeded — the push precedes the attach
call) together with the trace of gateway events that actually ran. -/
def processItem (g : Gateway) (d : Defaults) (item : FeedItem) :
    Option CreatedIssue × List GatewayEvent :=
  match g.createIssue item with
  | Except.error _ => (none, [GatewayEvent.createCall item])
  | Except.ok issue =>
    match g.addIssueToProject issue.number d.status d.milestone with
    | Except.error _ =>
        (some issue,
         [GatewayEvent.createCall item,
          GatewayEvent.attachCall issue.number d.status d.milestone])
    | Except.ok _ =>
        (some issue,
         [GatewayEvent.createCall item,
          GatewayEvent.attachCall issue.number d.status d.milestone,
          GatewayEvent.sleep 1000])

/-- The `for (const issueData of newIssues)` loop of `createNewIssues`:
in dry-run mode each iteration only logs and continues; otherwise the
iteration body is `processItem` and its results and events accumulate in
order. -/
def createLoop (g : Gateway) (d : Defaults) (dryRun : Bool) :
    List FeedItem → List CreatedIssue × List GatewayEvent
  | [] => ([], [])
  | item :: rest =>
    if dryRun then createLoop g d dryRun rest
    else
      let r := processItem g d item
      let rr := createLoop g d dryRun rest
      (r.1.toList ++ rr.1, r.2 ++ rr.2)

/-- `IssueService.createNewIssues`: returns the `createdIssues` array and
the ordered trace of gateway events.  The early return for an empty
`newIssues` list performs no gateway call. -/
def createNewIssues (g : Gateway) (newIssues : List FeedItem) (d : Defaults)
    (dryRun : Bool) : List CreatedIssue × List GatewayEvent :=
  if newIssues.length = 0 then ([], [])
  else createLoop g d dryRun newIssues

/-- One project-board action performed by
`GitHubService.addIssueToProject`. -/
inductive ProjectAction where
  | addItem (issueNumber : Nat)
  | updateStatus (status : String)
  | updateMilestone (milestone : String)
deriving DecidableEq, Repr

/-- The sequence of board actions of `GitHubService.addIssueToProject`
(src/services/githubService.js lines 89-113): always add the item to the
project, then `if (status)` update the status field, then `if (milestone)`
update the milestone field — JS truthiness, so `null` (and the empty
string) skips the corresponding update. -/
def attachActions (issueNumber : Nat) (status milestone : Option String) :
    List ProjectAction :=
  [ProjectAction.addItem issueNumber]
    ++ (match status with
        | some s => if s == "" then [] else [ProjectAction.updateStatus s]
        | none => [])
    ++ (match milestone with
        | some m => if m == "" then [] else [ProjectAction.updateMilestone m]
        | none => [])

/-- The `required` list of `Config.validateRequiredEnvVars`. -/
def requiredEnvVars : List String :=
  ["GITHUB_TOKEN", "GITHUB_OWNER", "GITHUB_REPO", "PROJECT_NUMBER", "MANTIS_RSS_URL"]

/-- `required.filter(key => !process.env[key])`: a required variable is
missing when its value is JS-falsy (absent or the empty string — exactly
how an unset CI secret surfaces). -/
def missingEnvVars (env : String → Option String) : List String :=
  requiredEnvVars.filter (fun key => !(jsTruthy (env key)))

/-- `Config.validateRequiredEnvVars`: throws an error naming every missing
variable when any is missing, otherwise returns normally. -/
def validateRequiredEnvVars (env : String → Option String) : Except String Unit :=
  let missing := missingEnvVars env
  if missing.length > 0 then
    Except.error ("Missing required environment variables: "
      ++ String.intercalate ", " missing)
  else Except.ok ()

/-- The configuration record assembled by the `Config` constructor.
`projectNumber` is kept as the raw environment string (the source applies
`parseInt`, an external numeric conversion that never throws). -/
structure ConfigData where
  token : String
  owner : String
  repo : String
  projectNumber : String
  rssUrl : String
  defaultStatus : String
  defaultMilestone : Option String
  dryRun : Bool
deriving DecidableEq, Repr

/-- The field assignments of the `Config` constructor, run only after
validation has passed. -/
def buildConfig (env : String → Option String) (argv : List String) : ConfigData :=
  ⟨(env "GITHUB_TOKEN").getD "",
   (env "GITHUB_OWNER").getD "",
   (env "GITHUB_REPO").getD "",
   (env "PROJECT_NUMBER").getD "",
   (env "MANTIS_RSS_URL").getD "",
   jsOrDefault (env "DEFAULT_STATUS") "Todo",
   jsOr (env "DEFAULT_MILESTONE") none,
   (env "DRY_RUN" == some "true") || argv.contains "--dry-run"⟩

/-- The `Config` constructor: `validateRequiredEnvVars` runs first (before
any network activity — the module performs none), and only if it does not
throw are the configuration fields assigned. -/
def constructConfig (env : String → Option String) (argv : List String) :
    Except String ConfigData :=
  match validateRequiredEnvVars env with
  | Except.error e => Except.error e
  | Except.ok _ => Except.ok (buildConfig env argv)

/-! ### Sample values used by the closed witness statements -/

/-- A sample feed item whose creation succeeds in the sample gateways. -/
def sampleItem : FeedItem := ⟨"A", "Bug", "", "d", none, none⟩

/-- A sample feed item that the mixed gateway fails to create. -/
def badItem : FeedItem := ⟨"bad", "Bug", "", "d", none, none⟩

/-- Sample reconciliation defaults. -/
def sampleDefaults : Defaults := ⟨some "Todo", some "v1.0"⟩

/-- A gateway whose create and attach calls always succeed. -/
def gwOk : Gateway :=
  ⟨fun it => Except.ok ⟨1, it.title⟩, fun _ _ _ => Except.ok ()⟩

/-- A gateway that fails creation of `badItem` and fails every attach. -/
def gwMixed : Gateway :=
  ⟨fun it => if it.title == "bad" then Except.error "boom"
             else Except.ok ⟨1, it.title⟩,
   fun _ _ _ => Except.error "attach failed"⟩

/-! ### Helper lemmas (shared) -/

/-- The issue kept by one loop iteration is exactly the successful result
of the `createIssue` call: a failed attach does not remove it, a failed
create never yields one. -/
theorem processItem_fst (g : Gateway) (d : Defaults) (item : FeedItem) :
    (processItem g d item).1 = (g.createIssue item).toOption := by
  cases hc : g.createIssue item with
  | error e => simp [processItem, hc, Except.toOption]
  | ok issue =>
    cases ha : g.addIssueToProject issue.number d.status d.milestone with
    | error e => simp [processItem, hc, ha, Except.toOption]
    | ok u => simp [processItem, hc, ha, Except.toOption]

/-- Closed form of the non-dry-run loop: kept issues are the successful
creations in order, and the event trace is the concatenation of the
per-item traces in input order. -/
theorem createLoop_false_eq (g : Gateway) (d : Defaults) (items : List FeedItem) :
    createLoop g d false items
      = (items.filterMap (fun it => (processItem g d it).1),
         (items.map (fun it => (processItem g d it).2)).flatten) := by
  induction items with
  | nil => rfl
  | cons item rest ih =>
    simp only [createLoop, if_neg (Bool.false_ne_true), ih, List.filterMap_cons,
      List.map_cons, List.flatten_cons]
    cases h : (processItem g d item).1 <;> simp [h, Option.toList]

/-- The dry-run loop performs no gateway call and keeps nothing. -/
theorem createLoop_true_eq (g : Gateway) (d : Defaults) (items : List FeedItem) :
    createLoop g d true items = ([], []) := by
  induction items with
  | nil => rfl
  | cons item rest ih => simp [createLoop, ih]

/-- The non-dry-run result list in closed form. -/
theorem createNewIssues_fst_eq (g : Gateway) (d : Defaults) (items : List FeedItem) :
    (createNewIssues g items d false).1
      = items.filterMap (fun it => (g.createIssue it).toOption) := by
  cases items with
  | nil => rfl
  | cons item rest =>
    simp only [createNewIssues, List.length_cons, createLoop_false_eq]
    simp only [processItem_fst]
    simp

/-- The non-dry-run trace in closed form. -/
theorem createNewIssues_snd_eq (g : Gateway) (d : Defaults) (items : List FeedItem) :
    (createNewIssues g items d false).2
      = (items.map (fun it => (processItem g d it).2)).flatten := by
  cases items with
  | nil => rfl
  | cons item rest =>
    simp only [createNewIssues, List.length_cons, createLoop_false_eq]
    simp

/-- Normalized titles are never the empty string. -/
theorem normalizeEntry_title_ne (e : RawFeedEntry) :
    (normalizeEntry e).title ≠ "" := by
  cases h : e.title with
  | none => simp [normalizeEntry, jsOrDefault, h]
  | some t =>
    simp only [normalizeEntry, h, Option.map_some, jsOrDefault]
    by_cases ht : jsTrim t == "" <;> simp_all

/-! ### Claim theorems -/

/-- Claim C1: in non-dry-run mode, a failing gateway call for one item is
confined to that item — `createNewIssues` is a total function (the per-item
try/catch keeps the loop running, nothing propagates out of the batch), and
the returned sequence is exactly the issues whose `createIssue` call
succeeded, in processing order, omitting every item whose creation
failed. -/
theorem c1_create_failure_isolated (g : Gateway) (d : Defaults)
    (items : List FeedItem) :
    (createNewIssues g items d false).1
      = items.filterMap (fun it => (g.createIssue it).toOption) :=
  createNewIssues_fst_eq g d items

/-- Claim C2: with a non-empty existing-issues list, `findNewIssues`
returns exactly the feed items whose trimmed title does not occur among the
trimmed existing-issue titles, as an order-preserving, non-deduplicating
filter of the input. -/
theorem c2_findNew_filter (rssItems : List FeedItem)
    (existingIssues : List ExistingIssue) (hne : existingIssues ≠ []) :
    findNewIssues rssItems existingIssues
      = rssItems.filter
          (fun item =>
            decide (jsTrim item.title ∉
              existingIssues.map (fun issue => jsTrim issue.title))) := by
  unfold findNewIssues
  rw [if_neg (by simpa [List.length_eq_zero] using hne)]
  apply List.filter_congr
  intro item _
  by_cases hmem : jsTrim item.title ∈
      existingIssues.map (fun issue => jsTrim issue.title)
  · simp [List.elem_iff, hmem]
  · simp [List.elem_iff, hmem]

/-- Witness for C2 at the spec's trimming example: an item titled
`"  Foo  "` is excluded by an existing issue titled `"Foo"`, while a fresh
item passes through. -/
theorem c2_findNew_filter_witness :
    findNewIssues
        [⟨"  Foo  ", "Bug", "", "d", none, none⟩,
         ⟨"Bar", "Bug", "", "d", none, none⟩]
        [⟨"Foo", 1⟩]
      = [⟨"  Foo  ", "Bug", "", "d", none, none⟩,
         ⟨"Bar", "Bug", "", "d", none, none⟩].filter
          (fun item =>
            decide (jsTrim item.title ∉
              [ExistingIssue.mk "Foo" 1].map (fun issue => jsTrim issue.title))) :=
  c2_findNew_filter _ _ (by decide)

/-- Claim C3: dry-run mode performs zero gateway calls and returns the
empty sequence, for every item list; and with `dryRun = false` an empty
item list returns immediately with no gateway call. -/
theorem c3_dryRun_and_empty_no_calls (g : Gateway) (d : Defaults)
    (items : List FeedItem) :
    createNewIssues g items d true = ([], [])
      ∧ createNewIssues g [] d false = ([], []) := by
  constructor
  · cases items with
    | nil => rfl
    | cons item rest => simp [createNewIssues, createLoop_true_eq]
  · rfl

/-- Claim C4: non-dry-run processing is strictly sequential in feed order —
for EVERY gateway (items may succeed or fail) the event trace is the
concatenation of the per-item traces in input order, so every event of an
item precedes every event of any later item and no creation starts before
the previous item's create and attach attempt finished; and for any item
whose create and attach both succeed, that item's trace is exactly
`createIssue`, then `addIssueToProject` with `defaults.status` and
`defaults.milestone`, then the fixed 1000 ms pause. -/
theorem c4_sequential_create_attach_pause (g : Gateway) (d : Defaults)
    (items : List FeedItem) :
    (createNewIssues g items d false).2
        = (items.map (fun it => (processItem g d it).2)).flatten
      ∧ (∀ (item : FeedItem) (issue : CreatedIssue),
          g.createIssue item = Except.ok issue →
          g.addIssueToProject issue.number d.status d.milestone = Except.ok () →
          (processItem g d item).2
            = [GatewayEvent.createCall item,
               GatewayEvent.attachCall issue.number d.status d.milestone,
               GatewayEvent.sleep 1000]) := by
  refine ⟨createNewIssues_snd_eq g d items, ?_⟩
  intro item issue hc ha
  simp [processItem, hc, ha]

/-- Witness for C4 on the all-success gateway with a singleton batch. -/
theorem c4_sequential_create_attach_pause_witness :
    (createNewIssues gwOk [sampleItem] sampleDefaults false).2
        = ([sampleItem].map (fun it => (processItem gwOk sampleDefaults it).2)).flatten
      ∧ (processItem gwOk sampleDefaults sampleItem).2
        = [GatewayEvent.createCall sampleItem,
           GatewayEvent.attachCall 1 sampleDefaults.status sampleDefaults.milestone,
           GatewayEvent.sleep 1000] :=
  ⟨(c4_sequential_create_attach_pause gwOk sampleDefaults [sampleItem]).1,
   (c4_sequential_create_attach_pause gwOk sampleDefaults [sampleItem]).2
     sampleItem ⟨1, "A"⟩ rfl rfl⟩

/-- Claim C5: an item whose creation succeeds is pushed to the result
before the attach call, so it stays in the returned sequence even when its
board attach fails; and, independently, an item whose creation fails
triggers no attach call at all (its trace is the bare failed create
call) — each half for every gateway containing such an item. -/
theorem c5_push_before_attach (g : Gateway) (d : Defaults)
    (items : List FeedItem) :
    (∀ (item : FeedItem) (issue : CreatedIssue) (e : String),
        item ∈ items →
        g.createIssue item = Except.ok issue →
        g.addIssueToProject issue.number d.status d.milestone
          = Except.error e →
        issue ∈ (createNewIssues g items d false).1)
      ∧ (∀ (bItem : FeedItem) (e2 : String),
          g.createIssue bItem = Except.error e2 →
          (processItem g d bItem).2 = [GatewayEvent.createCall bItem]) := by
  constructor
  · intro item issue e hmem hc ha
    rw [createNewIssues_fst_eq]
    exact List.mem_filterMap.mpr ⟨item, hmem, by simp [hc, Except.toOption]⟩
  · intro bItem e2 hbad
    simp [processItem, hbad]

/-- Witness for C5 on the mixed gateway: the attach call always fails, yet
the created issue is kept; the failed item's trace has no attach call. -/
theorem c5_push_before_attach_witness :
    (⟨1, "A"⟩ : CreatedIssue)
        ∈ (createNewIssues gwMixed [sampleItem] sampleDefaults false).1
      ∧ (processItem gwMixed sampleDefaults badItem).2
        = [GatewayEvent.createCall badItem] :=
  ⟨(c5_push_before_attach gwMixed sampleDefaults [sampleItem]).1
      sampleItem ⟨1, "A"⟩ "attach failed" (by simp) rfl rfl,
   (c5_push_before_attach gwMixed sampleDefaults [sampleItem]).2
      badItem "boom" rfl⟩

/-- Claim C6: guid fallback order is native guid, else link, else title —
where "present" is the source's truthiness test (defined and non-empty,
JS `||`): a truthy native guid is kept; a falsy guid falls back to a truthy
link; when both are falsy, the guid is the entry's title (so an entry with
only a title gets that title as its guid). -/
theorem c6_guid_fallback (e : RawFeedEntry) (g l : String)
    (hg : e.guid = some g) (hgne : g ≠ "") :
    (normalizeEntry e).guid = some g
      ∧ (∀ e2 : RawFeedEntry, jsTruthy e2.guid = false →
          e2.link = some l → l ≠ "" → (normalizeEntry e2).guid = some l)
      ∧ (∀ e3 : RawFeedEntry, jsTruthy e3.guid = false →
          jsTruthy e3.link = false → (normalizeEntry e3).guid = e3.title) := by
  refine ⟨?_, ?_, ?_⟩
  · have hgt : jsTruthy (some g) = true := by simp [jsTruthy, hgne]
    simp [normalizeEntry, jsOr, hg, hgt]
  · intro e2 h2 hl hlne
    have hlt : jsTruthy (some l) = true := by simp [jsTruthy, hlne]
    simp [normalizeEntry, jsOr, h2, hl, hlt]
  · intro e3 h3 hl3
    simp [normalizeEntry, jsOr, h3, hl3]

/-- Witness for C6: an entry with guid `"g1"` keeps it; an entry with no
guid and link `"l1"` gets the link; an entry with only a title gets the
title. -/
theorem c6_guid_fallback_witness :
    (normalizeEntry ⟨some "t", none, none, none, none, some "g1", none, none⟩).guid
        = some "g1"
      ∧ (normalizeEntry ⟨some "t", none, some "l1", none, none, none, none, none⟩).guid
        = some "l1"
      ∧ (normalizeEntry ⟨some "only title", none, none, none, none, none, none, none⟩).guid
        = some "only title" := by
  have h := c6_guid_fallback
    ⟨some "t", none, none, none, none, some "g1", none, none⟩ "g1" "l1"
    rfl (by decide)
  refine ⟨h.1, ?_, ?_⟩
  · exact h.2.1 ⟨some "t", none, some "l1", none, none, none, none, none⟩
      rfl rfl (by decide)
  · exact h.2.2 ⟨some "only title", none, none, none, none, none, none, none⟩
      rfl rfl

/-- Claim C7: the empty-existing-issues short-circuit is behaviorally
equivalent to the general algorithm run against the empty set —
`findNewIssues` agrees with the spec's general algorithm on every input,
`findNewIssues X [] = X` for every `X`, and `findNewIssues [] Y = []` for
every non-empty `Y`. -/
theorem c7_shortcircuit_refines (rssItems : List FeedItem)
    (existingIssues : List ExistingIssue) (hne : existingIssues ≠ []) :
    findNewIssues rssItems [] = findNewSpecAlg rssItems []
      ∧ findNewIssues rssItems existingIssues
          = findNewSpecAlg rssItems existingIssues
      ∧ findNewIssues rssItems [] = rssItems
      ∧ findNewIssues [] existingIssues = [] := by
  refine ⟨?_, ?_, rfl, ?_⟩
  · simp [findNewIssues, findNewSpecAlg]
  · unfold findNewIssues findNewSpecAlg
    rw [if_neg (by simpa [List.length_eq_zero] using hne)]
  · unfold findNewIssues
    rw [if_neg (by simpa [List.length_eq_zero] using hne)]
    rfl

/-- Witness for C7 at a concrete non-empty existing-issues list. -/
theorem c7_shortcircuit_refines_witness :
    findNewIssues [⟨"A", "Bug", "", "d", none, none⟩] []
        = findNewSpecAlg [⟨"A", "Bug", "", "d", none, none⟩] []
      ∧ findNewIssues [⟨"A", "Bug", "", "d", none, none⟩] [⟨"A", 1⟩]
          = findNewSpecAlg [⟨"A", "Bug", "", "d", none, none⟩] [⟨"A", 1⟩]
      ∧ findNewIssues [⟨"A", "Bug", "", "d", none, none⟩] []
          = [⟨"A", "Bug", "", "d", none, none⟩]
      ∧ findNewIssues [] [⟨"A", 1⟩] = [] :=
  c7_shortcircuit_refines [⟨"A", "Bug", "", "d", none, none⟩] [⟨"A", 1⟩]
    (by decide)

/-- Claim C8: every normalized title is non-empty; a title that is defined
and does not trim to empty is kept trimmed; an absent title falls back to
`"No Title"`; and a title that trims to empty also falls back to
`"No Title"` — each case fully general over entries and titles. -/
theorem c8_title_never_empty (entries : List RawFeedEntry) :
    (fetchRSSItems entries).all (fun item => !(item.title == "")) = true
      ∧ (∀ (e : RawFeedEntry) (t : String),
          e.title = some t → jsTrim t ≠ "" → (normalizeEntry e).title = jsTrim t)
      ∧ (∀ e : RawFeedEntry,
          e.title = none → (normalizeEntry e).title = "No Title")
      ∧ (∀ (e : RawFeedEntry) (t : String),
          e.title = some t → jsTrim t = "" →
          (normalizeEntry e).title = "No Title") := by
  refine ⟨?_, ?_, ?_, ?_⟩
  · rw [List.all_eq_true]
    intro item hitem
    rcases List.mem_map.mp hitem with ⟨e, _, rfl⟩
    simpa using normalizeEntry_title_ne e
  · intro e t h1 h1t
    simp [normalizeEntry, h1, jsOrDefault, h1t]
  · intro e h2
    simp [normalizeEntry, h2, jsOrDefault]
  · intro e t h3 ht
    simp [normalizeEntry, h3, jsOrDefault, ht]

/-- Witness for C8: a padded title is trimmed, a missing title falls back
to the placeholder, and a whitespace-only title falls back to the
placeholder. -/
theorem c8_title_never_empty_witness :
    (fetchRSSItems [⟨some "  x  ", none, none, none, none, none, none, none⟩]).all
        (fun item => !(item.title == "")) = true
      ∧ (normalizeEntry ⟨some "  x  ", none, none, none, none, none, none, none⟩).title
          = jsTrim "  x  "
      ∧ (normalizeEntry ⟨none, none, none, none, none, none, none, none⟩).title
          = "No Title"
      ∧ (normalizeEntry ⟨some "   ", none, none, none, none, none, none, none⟩).title
          = "No Title" := by
  have h := c8_title_never_empty
    [⟨some "  x  ", none, none, none, none, none, none, none⟩]
  exact ⟨h.1,
    h.2.1 ⟨some "  x  ", none, none, none, none, none, none, none⟩ "  x  "
      rfl (by decide),
    h.2.2.1 ⟨none, none, none, none, none, none, none, none⟩ rfl,
    h.2.2.2 ⟨some "   ", none, none, none, none, none, none, none⟩ "   "
      rfl (by decide)⟩

/-- Claim C9: `addIssueToProject` applies the status field update only if
the status is non-null, and the milestone field update only if the
milestone is non-null; a null status or milestone skips the corresponding
update. -/
theorem c9_attach_optional_fields (issueNumber : Nat)
    (status milestone : Option String) :
    (∀ s : String,
        ProjectAction.updateStatus s ∈ attachActions issueNumber status milestone →
        status ≠ none)
      ∧ (status = none → ∀ s : String,
          ProjectAction.updateStatus s ∉ attachActions issueNumber status milestone)
      ∧ (∀ m : String,
          ProjectAction.updateMilestone m ∈ attachActions issueNumber status milestone →
          milestone ≠ none)
      ∧ (milestone = none → ∀ m : String,
          ProjectAction.updateMilestone m ∉ attachActions issueNumber status milestone) := by
  refine ⟨?_, ?_, ?_, ?_⟩
  · intro s hs hnone
    subst hnone
    cases milestone with
    | none => simp [attachActions] at hs
    | some mm =>
      by_cases hmm : mm == "" <;> simp [attachActions, hmm] at hs
  · intro hnone s
    subst hnone
    cases milestone with
    | none => simp [attachActions]
    | some mm =>
      by_cases hmm : mm == "" <;> simp [attachActions, hmm]
  · intro m hm hnone
    subst hnone
    cases status with
    | none => simp [attachActions] at hm
    | some ss =>
      by_cases hss : ss == "" <;> simp [attachActions, hss] at hm
  · intro hnone m
    subst hnone
    cases status with
    | none => simp [attachActions]
    | some ss =>
      by_cases hss : ss == "" <;> simp [attachActions, hss]

/-- Witness for C9 at two pairs: with status `"Todo"` and milestone `null`,
the status update is present (so status is non-null) and no milestone
update occurs; with status `null` and milestone `"v1"`, no status update
occurs and the present milestone update forces a non-null milestone. -/
theorem c9_attach_optional_fields_witness :
    (some "Todo" : Option String) ≠ none
      ∧ ProjectAction.updateStatus "Todo" ∉ attachActions 7 none (some "v1")
      ∧ (some "v1" : Option String) ≠ none
      ∧ ProjectAction.updateMilestone "v1" ∉ attachActions 7 (some "Todo") none := by
  have hA := c9_attach_optional_fields 7 (some "Todo") none
  have hB := c9_attach_optional_fields 7 none (some "v1")
  exact ⟨hA.1 "Todo" (by simp [attachActions]),
    hB.2.1 rfl "Todo",
    hB.2.2.1 "v1" (by simp [attachActions]),
    hA.2.2.2 rfl "v1"⟩

/-- Claim C10: when a required environment variable is missing, validation
fails with an error enumerating exactly the missing names (the missing
variable among them); when none is missing, validation passes and the
`Config` constructor succeeds, assigning the configuration fields. -/
theorem c10_config_validation (env env2 : String → Option String)
    (argv : List String) (k : String)
    (hk : k ∈ requiredEnvVars) (hmiss : env k = none)
    (hok : missingEnvVars env2 = []) :
    validateRequiredEnvVars env
        = Except.error ("Missing required environment variables: "
            ++ String.intercalate ", " (missingEnvVars env))
      ∧ k ∈ missingEnvVars env
      ∧ validateRequiredEnvVars env2 = Except.ok ()
      ∧ constructConfig env2 argv = Except.ok (buildConfig env2 argv) := by
    have hkmem : k ∈ missingEnvVars env := by
      unfold missingEnvVars
      rw [List.mem_filter]
      exact ⟨hk, by simp [hmiss, jsTruthy]⟩
    have hpos : (missingEnvVars env).length > 0 :=
      List.length_pos.mpr (List.ne_nil_of_mem hkmem)
    have hval2 : validateRequiredEnvVars env2 = Except.ok () := by
      unfold validateRequiredEnvVars
      simp [hok]
    refine ⟨?_, hkmem, hval2, ?_⟩
    · unfold validateRequiredEnvVars
      simp [hpos]
    · unfold constructConfig
      rw [hval2]

/-- Witness for C10: an environment lacking `GITHUB_OWNER` fails validation
naming it; a fully populated environment validates and constructs. -/
theorem c10_config_validation_witness :
    validateRequiredEnvVars
        (fun key => if key = "GITHUB_OWNER" then none else some "x")
        = Except.error ("Missing required environment variables: "
            ++ String.intercalate ", "
                (missingEnvVars
                  (fun key => if key = "GITHUB_OWNER" then none else some "x")))
      ∧ "GITHUB_OWNER" ∈ missingEnvVars
          (fun key => if key = "GITHUB_OWNER" then none else some "x")
      ∧ validateRequiredEnvVars (fun _ => some "x") = Except.ok ()
      ∧ constructConfig (fun _ => some "x") []
          = Except.ok (buildConfig (fun _ => some "x") []) :=
  c10_config_validation
    (fun key => if key = "GITHUB_OWNER" then none else some "x")
    (fun _ => some "x") [] "GITHUB_OWNER"
    (by decide) (by decide) (by decide)
